import Mathlib

/-!
Shallow embedding of the CredApp Notification Service core
(`app/schemas/notification.py`, `app/services/rule_engine.py`,
`app/services/orchestrator.py`, `app/services/dispatcher.py`,
`app/messaging/publisher.py`, `app/messaging/consumer.py`,
`app/api/v1/notifications.py`, `app/core/config.py`).

Modelling conventions:
* Python `Optional[List[...]]` fields become `Option (List _)`; Python
  truthiness on such a field (`if request.channels:`) is `truthyList`.
* JSON values are the inductive `Json`; the wire body handed to the consumer
  is `Option Json`, where `none` stands for bytes that `json.loads` rejects.
* `datetime` timestamps are abstracted as `Nat` (an injective encoding of the
  time point); `datetime.utcnow()` becomes an explicit `now : Nat` argument.
* External effects (broker publish, channel senders) are reified: publishing
  returns the `PublishCall` handed to the connection manager, and the
  dispatcher takes the channel senders' outcomes as a function argument, per
  the external channel-sender contract.
-/

/-- Supported delivery channels (`DeliveryChannel` in `schemas/notification.py`). -/
inductive DeliveryChannel where
  | email
  | sms
  | push
  | in_app
deriving DecidableEq, Repr

/-- Supported domain roles (`RoleType` in `schemas/notification.py`). -/
inductive RoleType where
  | issuer
  | learner
  | employer
deriving DecidableEq, Repr

/-- JSON values, the image of `json.loads` / `model_dump_json`. -/
inductive Json where
  | null
  | str (s : String)
  | num (n : Nat)
  | bool (b : Bool)
  | arr (xs : List Json)
  | obj (fields : List (String × Json))
deriving BEq, Repr

/-- Payload for a notification event (`NotificationPayload`). -/
structure NotificationPayload where
  subject : Option String
  body : Option String
  metadata : List (String × Json)
deriving BEq, Repr

/-- Message consumed from or published to RabbitMQ (`NotificationMessage`).
`created_at` is the abstracted timestamp. -/
structure NotificationMessage where
  event_type : String
  source : String
  actor_role : RoleType
  recipient_roles : List RoleType
  recipients : List String
  channels : Option (List DeliveryChannel)
  payload : NotificationPayload
  created_at : Nat
deriving BEq, Repr

/-- Pydantic construction of a `NotificationMessage`: build the record, then run
the `validate_roles` model validator, which raises when `recipient_roles` is
empty (and checks nothing else). -/
def NotificationMessage.construct (event_type : String) (source : String)
    (actor_role : RoleType) (recipient_roles : List RoleType)
    (recipients : List String) (channels : Option (List DeliveryChannel))
    (payload : NotificationPayload) (created_at : Nat) :
    Except String NotificationMessage :=
  let m : NotificationMessage :=
    ⟨event_type, source, actor_role, recipient_roles, recipients, channels,
      payload, created_at⟩
  if m.recipient_roles.isEmpty then
    Except.error "NotificationMessage requires at least one recipient role."
  else
    Except.ok m

/-- API request to trigger a notification (`NotificationRequest`). -/
structure NotificationRequest where
  event_type : String
  actor_role : RoleType
  recipients : List String
  recipient_roles : Option (List RoleType)
  channels : Option (List DeliveryChannel)
  subject : Option String
  body : Option String
  metadata : List (String × Json)
deriving BEq, Repr

/-- Python truthiness of an `Optional[List[...]]` value: `None` and `[]` are
falsy, a non-empty list is truthy. -/
def truthyList : Option (List α) → Bool
  | none => false
  | some l => !l.isEmpty

/-- `NotificationRequest.to_message`: convert request data to a notification
message, with the Python `or`-chains on `channels` and `recipient_roles`.
Construction runs the pydantic validator, hence the `Except`. -/
def NotificationRequest.to_message (req : NotificationRequest) (source : String)
    (channels : Option (List DeliveryChannel))
    (recipient_roles : Option (List RoleType)) (now : Nat) :
    Except String NotificationMessage :=
  let resolved_channels : Option (List DeliveryChannel) :=
    if truthyList channels then channels
    else if truthyList req.channels then req.channels
    else none
  let resolved_roles : List RoleType :=
    if truthyList recipient_roles then recipient_roles.getD []
    else req.recipient_roles.getD []
  NotificationMessage.construct req.event_type source req.actor_role
    resolved_roles req.recipients resolved_channels
    ⟨req.subject, req.body, req.metadata⟩ now

/-- Immutable rule describing default behavior for a notification event
(`NotificationRule` in `rule_engine.py`). -/
structure NotificationRule where
  event_type : String
  default_channels : List DeliveryChannel
  target_roles : List RoleType
  description : String
deriving BEq, Repr

/-- The static `DEFAULT_RULES` table, keyed by event type. -/
def DEFAULT_RULES : List (String × NotificationRule) :=
  [ ("credential.issued",
      ⟨"credential.issued", [DeliveryChannel.email, DeliveryChannel.in_app],
        [RoleType.learner],
        "Learner receives notification when issuer issues a credential."⟩),
    ("credential.updated",
      ⟨"credential.updated", [DeliveryChannel.email, DeliveryChannel.in_app],
        [RoleType.learner],
        "Learner notified when credential metadata changes."⟩),
    ("credential.revoked",
      ⟨"credential.revoked", [DeliveryChannel.email, DeliveryChannel.in_app],
        [RoleType.learner],
        "Learner alerted when a credential is revoked."⟩),
    ("profile.viewed",
      ⟨"profile.viewed", [DeliveryChannel.in_app], [RoleType.learner],
        "Learner informed when an employer views their profile."⟩),
    ("employer.requested_verification",
      ⟨"employer.requested_verification",
        [DeliveryChannel.email, DeliveryChannel.in_app], [RoleType.issuer],
        "Issuer notified when employer requests verification."⟩) ]

/-- `dict.fromkeys`-style deduplication: drop duplicates while preserving
first-seen order. `seen` accumulates the keys already emitted. -/
def dedupFirstAux [DecidableEq α] (seen : List α) : List α → List α
  | [] => []
  | a :: l =>
      if a ∈ seen then dedupFirstAux seen l
      else a :: dedupFirstAux (a :: seen) l

/-- `list(dict.fromkeys(xs))`: first-seen-order deduplication. -/
def dedupFirst [DecidableEq α] (l : List α) : List α :=
  dedupFirstAux [] l

/-- Rule engine state: the injected rule table (`NotificationRuleEngine`). -/
structure NotificationRuleEngine where
  rules : List (String × NotificationRule)
deriving Repr

/-- `NotificationRuleEngine.get_rule`: dictionary lookup by exact event type. -/
def NotificationRuleEngine.get_rule (engine : NotificationRuleEngine)
    (event_type : String) : Option NotificationRule :=
  engine.rules.lookup event_type

/-- `NotificationRuleEngine.resolve_channels`: request override (deduplicated,
first-seen order) if truthy, else the matching rule's default channels, else
the single channel `in_app`. -/
def NotificationRuleEngine.resolve_channels (engine : NotificationRuleEngine)
    (request : NotificationRequest) : List DeliveryChannel :=
  if truthyList request.channels then dedupFirst (request.channels.getD [])
  else
    match engine.get_rule request.event_type with
    | some rule => rule.default_channels
    | none => [DeliveryChannel.in_app]

/-- `NotificationRuleEngine.resolve_recipient_roles`: request override
(deduplicated, first-seen order) if truthy, else the matching rule's target
roles, else the empty list. -/
def NotificationRuleEngine.resolve_recipient_roles
    (engine : NotificationRuleEngine) (request : NotificationRequest) :
    List RoleType :=
  if truthyList request.recipient_roles then
    dedupFirst (request.recipient_roles.getD [])
  else
    match engine.get_rule request.event_type with
    | some rule => rule.target_roles
    | none => []

/-- The configuration fields of `Settings` (`core/config.py`) that the modelled
components read, with their defaults. -/
structure Settings where
  app_name : String := "CredApp Notification Service"
  app_version : String := "0.1.0"
  rabbitmq_exchange : String := "notifications.exchange"
  rabbitmq_queue : String := "notifications.queue"
  rabbitmq_routing_key : String := "notifications.*"
  rabbitmq_publish_routing_key : String := "notifications.broadcast"
  rabbitmq_prefetch_count : Nat := 64
  rabbitmq_requeue_on_error : Bool := true
  worker_concurrency : Nat := 4
deriving Repr

/-- The process-wide `settings` singleton with all defaults. -/
def settings : Settings := {}

/-- Failure of `NotificationOrchestrator.prepare_message`. The source raises
`ValueError`; `policyResolutionError` is the raise in `prepare_message` itself
(the spec's PolicyResolutionError), `validationError` a `ValueError` escaping
the pydantic model validator during construction. -/
inductive PrepareError where
  | policyResolutionError (message : String)
  | validationError (message : String)
deriving BEq, Repr

/-- `NotificationOrchestrator.prepare_message`: resolve channels and roles,
fail when no recipient roles resolve, convert to a message, and force
`[in_app]` on the result when its channels are falsy. The source encloses the
event type of the error message in single quote marks; those quote characters
are omitted here. -/
def NotificationOrchestrator.prepare_message (engine : NotificationRuleEngine)
    (request : NotificationRequest) (now : Nat) :
    Except PrepareError NotificationMessage :=
  let channels := engine.resolve_channels request
  let recipient_roles := engine.resolve_recipient_roles request
  if recipient_roles.isEmpty then
    Except.error (PrepareError.policyResolutionError
      ("No recipient roles resolved for event " ++ request.event_type ++
        ". Provide recipient_roles explicitly or register a rule."))
  else
    match request.to_message settings.app_name (some channels)
        (some recipient_roles) now with
    | Except.error e => Except.error (PrepareError.validationError e)
    | Except.ok message =>
        if truthyList message.channels then Except.ok message
        else Except.ok { message with channels := some [DeliveryChannel.in_app] }

/-- String form of a `DeliveryChannel` enum value. -/
def DeliveryChannel.value : DeliveryChannel → String
  | DeliveryChannel.email => "email"
  | DeliveryChannel.sms => "sms"
  | DeliveryChannel.push => "push"
  | DeliveryChannel.in_app => "in_app"

/-- String form of a `RoleType` enum value. -/
def RoleType.value : RoleType → String
  | RoleType.issuer => "issuer"
  | RoleType.learner => "learner"
  | RoleType.employer => "employer"

/-- JSON encoding of an `Optional[str]` field. -/
def encodeOptStr : Option String → Json
  | none => Json.null
  | some s => Json.str s

/-- `NotificationMessage.model_dump_json`: the pydantic JSON serialization of a
message used by the publisher. `created_at` is serialized through the injective
timestamp encoding (ISO-8601 in the source, abstracted here as the number). -/
def NotificationMessage.model_dump_json (m : NotificationMessage) : Json :=
  Json.obj
    [ ("event_type", Json.str m.event_type),
      ("source", Json.str m.source),
      ("actor_role", Json.str m.actor_role.value),
      ("recipient_roles", Json.arr (m.recipient_roles.map
          (fun r => Json.str r.value))),
      ("recipients", Json.arr (m.recipients.map Json.str)),
      ("channels",
        match m.channels with
        | none => Json.null
        | some cs => Json.arr (cs.map (fun c => Json.str c.value))),
      ("payload", Json.obj
        [ ("subject", encodeOptStr m.payload.subject),
          ("body", encodeOptStr m.payload.body),
          ("metadata", Json.obj m.payload.metadata) ]),
      ("created_at", Json.num m.created_at) ]

/-- Field lookup in a JSON object. -/
def Json.getField : Json → String → Option Json
  | Json.obj fields, key => fields.lookup key
  | _, _ => none

/-- Parse a JSON value as a string. -/
def Json.asStr : Json → Option String
  | Json.str s => some s
  | _ => none

/-- Parse a `RoleType` from its JSON string form. -/
def decodeRole : Json → Option RoleType
  | Json.str "issuer" => some RoleType.issuer
  | Json.str "learner" => some RoleType.learner
  | Json.str "employer" => some RoleType.employer
  | _ => none

/-- Parse a `DeliveryChannel` from its JSON string form. -/
def decodeChannel : Json → Option DeliveryChannel
  | Json.str "email" => some DeliveryChannel.email
  | Json.str "sms" => some DeliveryChannel.sms
  | Json.str "push" => some DeliveryChannel.push
  | Json.str "in_app" => some DeliveryChannel.in_app
  | _ => none

/-- Element-wise parsing of a JSON array, failing if any element fails. -/
def decodeList (f : Json → Option β) : List Json → Option (List β)
  | [] => some []
  | j :: js =>
      match f j, decodeList f js with
      | some b, some bs => some (b :: bs)
      | _, _ => none

/-- Parse the optional `channels` field: absent or `null` gives the pydantic
default `None`, an array must parse element-wise. -/
def decodeChannels : Option Json → Option (Option (List DeliveryChannel))
  | none => some none
  | some Json.null => some none
  | some (Json.arr xs) => (decodeList decodeChannel xs).map some
  | some _ => none

/-- Parse an `Optional[str]` field: absent or `null` gives `None`. -/
def decodeOptStr : Option Json → Option (Option String)
  | none => some none
  | some Json.null => some none
  | some (Json.str s) => some (some s)
  | some _ => none

/-- Parse the `payload` object; an absent field yields the default-factory
payload. -/
def decodePayload : Option Json → Option NotificationPayload
  | none => some ⟨none, none, []⟩
  | some j =>
      match decodeOptStr (j.getField "subject"), decodeOptStr (j.getField "body"),
          j.getField "metadata" with
      | some subject, some body, some (Json.obj metadata) =>
          some ⟨subject, body, metadata⟩
      | some subject, some body, none => some ⟨subject, body, []⟩
      | _, _, _ => none

/-- `NotificationMessage.model_validate`: schema validation of a decoded JSON
payload as the consumer performs it, including the `validate_roles` model
validator. `none` is a pydantic `ValidationError`. -/
def NotificationMessage.model_validate (j : Json) : Option NotificationMessage :=
  match (j.getField "event_type").bind Json.asStr,
      (j.getField "source").bind Json.asStr,
      (j.getField "actor_role").bind decodeRole,
      j.getField "recipient_roles", j.getField "recipients" with
  | some event_type, some source, some actor_role,
      some (Json.arr roleJs), some (Json.arr recJs) =>
      match decodeList decodeRole roleJs, decodeList Json.asStr recJs,
          decodeChannels (j.getField "channels"),
          decodePayload (j.getField "payload"),
          j.getField "created_at" with
      | some recipient_roles, some recipients, some channels, some payload,
          some (Json.num created_at) =>
          if recipient_roles.isEmpty then none
          else some ⟨event_type, source, actor_role, recipient_roles,
            recipients, channels, payload, created_at⟩
      | _, _, _, _, _ => none
  | _, _, _, _, _ => none

/-- An AMQP message as built by `NotificationPublisher.publish` (`aio_pika`
`Message`); the serialized body is kept as its JSON value. -/
structure AmqpMessage where
  body : Json
  content_type : String
  delivery_mode : Nat
  headers : List (String × Json)
deriving BEq, Repr

/-- A call handed to the connection manager's `publish`. -/
structure PublishCall where
  message : AmqpMessage
  routing_key : String
deriving BEq, Repr

/-- Python `or` on an optional string: `None` and `""` are falsy. -/
def pyOrStr (s : Option String) (default : String) : String :=
  match s with
  | none => default
  | some v => if v.isEmpty then default else v

/-- `NotificationPublisher.publish`: serialize the message, build a persistent
(delivery mode 2) AMQP message with `event_type`/`source` headers, and hand it
to the connection manager with `routing_key or self._default_routing_key`. -/
def NotificationPublisher.publish (default_routing_key : String)
    (message : NotificationMessage) (routing_key : Option String) :
    PublishCall :=
  let serialized := message.model_dump_json
  let amqp_message : AmqpMessage :=
    { body := serialized,
      content_type := "application/json",
      delivery_mode := 2,
      headers := [ ("event_type", Json.str message.event_type),
                   ("source", Json.str message.source) ] }
  { message := amqp_message,
    routing_key := pyOrStr routing_key default_routing_key }

/-- Terminal broker outcome of handling one delivery: ack, or reject with the
given requeue flag. -/
inductive HandleOutcome where
  | ack
  | nack (requeue : Bool)
deriving DecidableEq, Repr

/-- Observable result of `NotificationConsumer._handle_message`: the broker
outcome and whether the dispatcher was invoked. -/
structure HandleResult where
  outcome : HandleOutcome
  dispatcher_invoked : Bool
deriving DecidableEq, Repr

/-- `NotificationConsumer._handle_message` under `message.process(requeue :=
requeue_on_error)`: a body `json.loads` rejects (`none`) or that fails schema
validation is nacked with the configured requeue flag before the dispatcher
runs; a dispatch failure (`dispatchOk`, the outcome of
`dispatcher.dispatch`) is nacked likewise; success is acked. -/
def NotificationConsumer.handle_message (requeue_on_error : Bool)
    (dispatchOk : NotificationMessage → Bool) (body : Option Json) :
    HandleResult :=
  match body with
  | none => ⟨HandleOutcome.nack requeue_on_error, false⟩
  | some j =>
      match NotificationMessage.model_validate j with
      | none => ⟨HandleOutcome.nack requeue_on_error, false⟩
      | some notification =>
          if dispatchOk notification then ⟨HandleOutcome.ack, true⟩
          else ⟨HandleOutcome.nack requeue_on_error, true⟩

/-- Observable result of `NotificationDispatcher.dispatch`: the channels on
which a send was attempted, and whether the `asyncio.gather` over the per-
channel sends succeeded (it fails iff some send raises). -/
structure DispatchResult where
  attempted : List DeliveryChannel
  ok : Bool
deriving DecidableEq, Repr

/-- `NotificationDispatcher.dispatch`: resolve
`notification.channels or [EMAIL]` and gather one `_send` per channel; the
external per-channel sender outcomes are the oracle `send` (the source's
`_send` delegates to channel providers). -/
def NotificationDispatcher.dispatch
    (send : NotificationMessage → DeliveryChannel → Bool)
    (notification : NotificationMessage) : DispatchResult :=
  let channels :=
    if truthyList notification.channels then notification.channels.getD []
    else [DeliveryChannel.email]
  ⟨channels, channels.all (send notification)⟩

/-- HTTP response of the enqueue endpoint: 202 accepted, 422 client error, or
500 server error. -/
inductive ApiResponse where
  | accepted (event_type : String)
  | clientError (detail : String)
  | serverError (detail : String)
deriving BEq, Repr

/-- Observable result of `enqueue_notification`: the HTTP response and every
publish performed on the broker during the call. -/
structure EnqueueResult where
  response : ApiResponse
  published : List PublishCall
deriving BEq, Repr

/-- `enqueue_notification` (`api/v1/notifications.py`): prepare the message,
publish it with the default routing key, return 202; a `ValueError` from
`prepare_message` becomes a 422 with no publish performed. -/
def enqueue_notification (engine : NotificationRuleEngine)
    (request : NotificationRequest) (now : Nat) : EnqueueResult :=
  match NotificationOrchestrator.prepare_message engine request now with
  | Except.error (PrepareError.policyResolutionError msg) =>
      ⟨ApiResponse.clientError msg, []⟩
  | Except.error (PrepareError.validationError msg) =>
      ⟨ApiResponse.clientError msg, []⟩
  | Except.ok message =>
      ⟨ApiResponse.accepted message.event_type,
        [NotificationPublisher.publish settings.rabbitmq_publish_routing_key
          message none]⟩

/-- Whether an `Except` computation succeeded. -/
def exceptIsOk : Except ε α → Bool
  | Except.ok _ => true
  | Except.error _ => false

/-- `NotificationRuleEngine()` as built by `get_rule_engine`: no injected rules,
so `rules or DEFAULT_RULES` selects the static table. -/
def defaultRuleEngine : NotificationRuleEngine := ⟨DEFAULT_RULES⟩

/-- A request for an event type with no rule and no explicit roles
(spec Scenario B). -/
def exampleUnknownRequest : NotificationRequest :=
  ⟨"unknown.event", RoleType.issuer, ["u1"], none, none, none, none, []⟩

/-- A concrete fully-resolved message used to exercise the messaging layer. -/
def exampleMessage : NotificationMessage :=
  ⟨"credential.issued", "CredApp Notification Service", RoleType.issuer,
    [RoleType.learner], ["u1"],
    some [DeliveryChannel.email, DeliveryChannel.in_app],
    ⟨some "subject", none, []⟩, 42⟩

/-- Scenario C-style request: explicit channels override (with a duplicate) on
an event that also has a rule. -/
def exampleSmsRequest : NotificationRequest :=
  ⟨"profile.viewed", RoleType.employer, ["u2"], none,
    some [DeliveryChannel.sms, DeliveryChannel.sms], none, none, []⟩

/-- Scenario A-style request: rule-driven resolution, no overrides. -/
def exampleIssuedRequest : NotificationRequest :=
  ⟨"credential.issued", RoleType.issuer, ["u1"], none, none, none, none, []⟩

/-- Variant of `exampleIssuedRequest` differing in every field the resolution
functions are not supposed to read. -/
def exampleIssuedVariant : NotificationRequest :=
  ⟨"credential.issued", RoleType.employer, ["u9", "u10"], none, none,
    some "subject", some "body", [("k", Json.str "v")]⟩

/-- A validly constructed message whose `channels` field is absent (`None`). -/
def exampleMessageNoChannels : NotificationMessage :=
  ⟨"credential.issued", "CredApp Notification Service", RoleType.issuer,
    [RoleType.learner], ["u1"], none, ⟨none, none, []⟩, 42⟩

/-- A channel-sender oracle that fails exactly on `sms`. -/
def failOnSms : NotificationMessage → DeliveryChannel → Bool :=
  fun _ c => c != DeliveryChannel.sms

theorem dedupFirstAux_sublist [DecidableEq α] (seen : List α) (l : List α) :
    (dedupFirstAux seen l).Sublist l := by
  induction l generalizing seen with
  | nil => simp [dedupFirstAux]
  | cons a l ih =>
      by_cases h : a ∈ seen
      · exact List.Sublist.cons a (by simpa [dedupFirstAux, h] using ih seen)
      · simpa [dedupFirstAux, h] using List.Sublist.cons₂ a (ih (a :: seen))

theorem mem_dedupFirstAux [DecidableEq α] (seen l : List α) (b : α) :
    b ∈ dedupFirstAux seen l ↔ b ∈ l ∧ b ∉ seen := by
  induction l generalizing seen with
  | nil => simp [dedupFirstAux]
  | cons a l ih =>
      by_cases h : a ∈ seen
      · rw [dedupFirstAux, if_pos h, ih]
        constructor
        · rintro ⟨hl, hs⟩; exact ⟨List.mem_cons_of_mem a hl, hs⟩
        · rintro ⟨hl, hs⟩
          rcases List.mem_cons.mp hl with rfl | hl
          · exact absurd h hs
          · exact ⟨hl, hs⟩
      · rw [dedupFirstAux, if_neg h]
        simp only [List.mem_cons, ih, not_or]
        by_cases hba : b = a
        · subst hba; simp [h]
        · simp [hba]

theorem dedupFirstAux_nodup [DecidableEq α] (seen l : List α) :
    (dedupFirstAux seen l).Nodup := by
  induction l generalizing seen with
  | nil => simp [dedupFirstAux]
  | cons a l ih =>
      by_cases h : a ∈ seen
      · simpa [dedupFirstAux, h] using ih seen
      · rw [dedupFirstAux, if_neg h]
        refine List.nodup_cons.mpr ⟨?_, ih (a :: seen)⟩
        intro ha
        exact ((mem_dedupFirstAux (a :: seen) l a).mp ha).2 (List.mem_cons_self a _)

theorem dedupFirst_sublist [DecidableEq α] (l : List α) :
    (dedupFirst l).Sublist l :=
  dedupFirstAux_sublist [] l

theorem dedupFirst_nodup [DecidableEq α] (l : List α) :
    (dedupFirst l).Nodup :=
  dedupFirstAux_nodup [] l

theorem mem_dedupFirst [DecidableEq α] (l : List α) (b : α) :
    b ∈ dedupFirst l ↔ b ∈ l := by
  simpa using mem_dedupFirstAux [] l b

/-- C4: `resolve_channels` implements the three-step resolution exactly: a
truthy explicit channels list is returned deduplicated in first-seen order
(a duplicate-free sublist with the same members), regardless of any matching
rule; otherwise a rule matching the event type yields that rule's
`default_channels` unchanged; otherwise the result is `[in_app]`. -/
theorem resolve_channels_three_step (engine : NotificationRuleEngine)
    (request : NotificationRequest) :
    (∀ cs, request.channels = some cs → cs ≠ [] →
      engine.resolve_channels request = dedupFirst cs ∧
      (engine.resolve_channels request).Nodup ∧
      (engine.resolve_channels request).Sublist cs ∧
      (∀ c, c ∈ engine.resolve_channels request ↔ c ∈ cs)) ∧
    ((request.channels = none ∨ request.channels = some []) →
      ∀ rule, engine.get_rule request.event_type = some rule →
        engine.resolve_channels request = rule.default_channels) ∧
    ((request.channels = none ∨ request.channels = some []) →
      engine.get_rule request.event_type = none →
      engine.resolve_channels request = [DeliveryChannel.in_app]) := by
  refine ⟨?_, ?_, ?_⟩
  · intro cs hcs hne
    have heq : engine.resolve_channels request = dedupFirst cs := by
      simp [NotificationRuleEngine.resolve_channels, truthyList, hcs,
        List.isEmpty_iff, hne]
    refine ⟨heq, ?_, ?_, ?_⟩
    · rw [heq]; exact dedupFirst_nodup cs
    · rw [heq]; exact dedupFirst_sublist cs
    · intro c; rw [heq]; exact mem_dedupFirst cs c
  · rintro (hch | hch) rule hrule <;>
      simp [NotificationRuleEngine.resolve_channels, truthyList, hch, hrule]
  · rintro (hch | hch) hnone <;>
      simp [NotificationRuleEngine.resolve_channels, truthyList, hch, hnone]

/-- Witness for C4: Scenario C-style explicit override with a duplicate, the
rule branch on `credential.issued`, and the `in_app` fallback on an unknown
event. -/
theorem resolve_channels_three_step_witness :
    defaultRuleEngine.resolve_channels exampleSmsRequest =
      [DeliveryChannel.sms] ∧
    defaultRuleEngine.resolve_channels exampleIssuedRequest =
      [DeliveryChannel.email, DeliveryChannel.in_app] ∧
    defaultRuleEngine.resolve_channels exampleUnknownRequest =
      [DeliveryChannel.in_app] := by
  refine ⟨?_, ?_, ?_⟩
  · exact ((resolve_channels_three_step defaultRuleEngine
      exampleSmsRequest).1 [DeliveryChannel.sms, DeliveryChannel.sms] rfl
        (by decide)).1.trans (by decide)
  · exact (resolve_channels_three_step defaultRuleEngine
      exampleIssuedRequest).2.1 (Or.inl rfl)
        ⟨"credential.issued", [DeliveryChannel.email, DeliveryChannel.in_app],
          [RoleType.learner],
          "Learner receives notification when issuer issues a credential."⟩ rfl
  · exact (resolve_channels_three_step defaultRuleEngine
      exampleUnknownRequest).2.2 (Or.inl rfl) rfl

/-- C5: `resolve_recipient_roles` applies the same three-step resolution with
the empty-list fallback: a truthy explicit roles list is returned deduplicated
in first-seen order; otherwise a matching rule yields its `target_roles`;
otherwise the empty list is returned (no error value exists: the function is
total). -/
theorem resolve_recipient_roles_three_step (engine : NotificationRuleEngine)
    (request : NotificationRequest) :
    (∀ rs, request.recipient_roles = some rs → rs ≠ [] →
      engine.resolve_recipient_roles request = dedupFirst rs ∧
      (engine.resolve_recipient_roles request).Nodup ∧
      (engine.resolve_recipient_roles request).Sublist rs ∧
      (∀ r, r ∈ engine.resolve_recipient_roles request ↔ r ∈ rs)) ∧
    ((request.recipient_roles = none ∨ request.recipient_roles = some []) →
      ∀ rule, engine.get_rule request.event_type = some rule →
        engine.resolve_recipient_roles request = rule.target_roles) ∧
    ((request.recipient_roles = none ∨ request.recipient_roles = some []) →
      engine.get_rule request.event_type = none →
      engine.resolve_recipient_roles request = []) := by
  refine ⟨?_, ?_, ?_⟩
  · intro rs hrs hne
    have heq : engine.resolve_recipient_roles request = dedupFirst rs := by
      simp [NotificationRuleEngine.resolve_recipient_roles, truthyList, hrs,
        List.isEmpty_iff, hne]
    refine ⟨heq, ?_, ?_, ?_⟩
    · rw [heq]; exact dedupFirst_nodup rs
    · rw [heq]; exact dedupFirst_sublist rs
    · intro r; rw [heq]; exact mem_dedupFirst rs r
  · rintro (hrr | hrr) rule hrule <;>
      simp [NotificationRuleEngine.resolve_recipient_roles, truthyList, hrr,
        hrule]
  · rintro (hrr | hrr) hnone <;>
      simp [NotificationRuleEngine.resolve_recipient_roles, truthyList, hrr,
        hnone]

/-- Witness for C5: explicit duplicate roles deduplicated, the rule branch on
`credential.issued`, and the empty fallback on an unknown event. -/
theorem resolve_recipient_roles_three_step_witness :
    (NotificationRuleEngine.resolve_recipient_roles defaultRuleEngine
      ⟨"unknown.event", RoleType.issuer, ["u1"],
        some [RoleType.learner, RoleType.learner, RoleType.issuer], none,
        none, none, []⟩) = [RoleType.learner, RoleType.issuer] ∧
    defaultRuleEngine.resolve_recipient_roles exampleIssuedRequest =
      [RoleType.learner] ∧
    defaultRuleEngine.resolve_recipient_roles exampleUnknownRequest = [] := by
  refine ⟨?_, ?_, ?_⟩
  · exact ((resolve_recipient_roles_three_step defaultRuleEngine
      ⟨"unknown.event", RoleType.issuer, ["u1"],
        some [RoleType.learner, RoleType.learner, RoleType.issuer], none,
        none, none, []⟩).1
      [RoleType.learner, RoleType.learner, RoleType.issuer] rfl
      (by decide)).1.trans (by decide)
  · exact (resolve_recipient_roles_three_step defaultRuleEngine
      exampleIssuedRequest).2.1 (Or.inl rfl)
        ⟨"credential.issued", [DeliveryChannel.email, DeliveryChannel.in_app],
          [RoleType.learner],
          "Learner receives notification when issuer issues a credential."⟩ rfl
  · exact (resolve_recipient_roles_three_step defaultRuleEngine
      exampleUnknownRequest).2.2 (Or.inl rfl) rfl

/-- C10: noninterference of the two resolution functions: with a fixed rule
table, `resolve_channels` reads only the `channels` and `event_type` fields of
the request, and `resolve_recipient_roles` reads only `recipient_roles` and
`event_type`. -/
theorem resolve_noninterference (engine : NotificationRuleEngine)
    (r1 r2 : NotificationRequest) (het : r1.event_type = r2.event_type) :
    (r1.channels = r2.channels →
      engine.resolve_channels r1 = engine.resolve_channels r2) ∧
    (r1.recipient_roles = r2.recipient_roles →
      engine.resolve_recipient_roles r1 = engine.resolve_recipient_roles r2) := by
  constructor <;> intro h
  · simp [NotificationRuleEngine.resolve_channels, het, h]
  · simp [NotificationRuleEngine.resolve_recipient_roles, het, h]

/-- Witness for C10: two requests differing in actor role, recipients,
subject, body and metadata resolve identically. -/
theorem resolve_noninterference_witness :
    defaultRuleEngine.resolve_channels exampleIssuedRequest =
      defaultRuleEngine.resolve_channels exampleIssuedVariant ∧
    defaultRuleEngine.resolve_recipient_roles exampleIssuedRequest =
      defaultRuleEngine.resolve_recipient_roles exampleIssuedVariant := by
  have h := resolve_noninterference defaultRuleEngine exampleIssuedRequest
    exampleIssuedVariant rfl
  exact ⟨h.1 rfl, h.2 rfl⟩

/-- Counterexample to C1: the pydantic constructor accepts a
`NotificationMessage` whose `channels` is the empty list, and one whose
`channels` is absent (`None`); only empty `recipient_roles` is rejected. -/
theorem construct_empty_channels_accepted :
    exceptIsOk (NotificationMessage.construct "credential.issued"
      "CredApp Notification Service" RoleType.issuer [RoleType.learner]
      ["u1"] (some []) ⟨none, none, []⟩ 0) = true ∧
    exceptIsOk (NotificationMessage.construct "credential.issued"
      "CredApp Notification Service" RoleType.issuer [RoleType.learner]
      ["u1"] none ⟨none, none, []⟩ 0) = true := by
  exact ⟨rfl, rfl⟩

/-- C1 (amended): constructing a `NotificationMessage` fails exactly when
`recipient_roles` is empty; the `channels` field is passed through unvalidated,
so empty or absent channels is accepted at construction. Every validly
constructed message has non-empty `recipient_roles`. -/
theorem construct_validation (event_type source : String)
    (actor_role : RoleType) (recipient_roles : List RoleType)
    (recipients : List String) (channels : Option (List DeliveryChannel))
    (payload : NotificationPayload) (created_at : Nat) :
    exceptIsOk (NotificationMessage.construct event_type source actor_role
      recipient_roles recipients channels payload created_at) =
      !recipient_roles.isEmpty ∧
    ∀ m, NotificationMessage.construct event_type source actor_role
      recipient_roles recipients channels payload created_at = Except.ok m →
      m.recipient_roles ≠ [] ∧ m.channels = channels := by
  constructor
  · by_cases h : recipient_roles.isEmpty <;>
      simp [NotificationMessage.construct, exceptIsOk, h]
  · intro m hm
    by_cases h : recipient_roles.isEmpty
    · simp [NotificationMessage.construct, h] at hm
    · simp only [NotificationMessage.construct, if_neg h] at hm
      cases hm
      exact ⟨fun hnil => h (by simpa using congrArg List.isEmpty hnil), rfl⟩

/-- Witness for C1 (amended): a concrete construction with one recipient role
and explicit channels succeeds and satisfies the invariant. -/
theorem construct_validation_witness :
    exceptIsOk (NotificationMessage.construct "credential.issued" "svc"
      RoleType.issuer [RoleType.learner] ["u1"]
      (some [DeliveryChannel.email]) ⟨none, none, []⟩ 5) =
      !([RoleType.learner] : List RoleType).isEmpty ∧
    ([RoleType.learner] : List RoleType) ≠ [] := by
  have h := construct_validation "credential.issued" "svc" RoleType.issuer
    [RoleType.learner] ["u1"] (some [DeliveryChannel.email]) ⟨none, none, []⟩ 5
  exact ⟨h.1, (h.2 ⟨"credential.issued", "svc", RoleType.issuer,
    [RoleType.learner], ["u1"], some [DeliveryChannel.email],
    ⟨none, none, []⟩, 5⟩ rfl).1⟩

/-- Counterexample to C2: under the default configuration
(`rabbitmq_requeue_on_error = true`), a malformed (non-JSON) body is nacked
WITH requeue, not rejected without requeue; the dispatcher is still never
invoked. -/
theorem malformed_requeued_counterexample :
    (NotificationConsumer.handle_message settings.rabbitmq_requeue_on_error
      (fun _ => true) none).outcome = HandleOutcome.nack true ∧
    (NotificationConsumer.handle_message settings.rabbitmq_requeue_on_error
      (fun _ => true) none).outcome ≠ HandleOutcome.nack false ∧
    (NotificationConsumer.handle_message settings.rabbitmq_requeue_on_error
      (fun _ => true) none).dispatcher_invoked = false := by
  exact ⟨rfl, by decide, rfl⟩

/-- C2 (amended): for every delivery whose body fails JSON decoding or schema
validation, the handler nacks the message with the configured
`requeue_on_error` flag (true by default, so such messages ARE requeued) and
never invokes the dispatcher. -/
theorem handle_malformed (requeue_on_error : Bool)
    (dispatchOk : NotificationMessage → Bool) (body : Option Json)
    (h : ∀ j, body = some j → NotificationMessage.model_validate j = none) :
    NotificationConsumer.handle_message requeue_on_error dispatchOk body =
      ⟨HandleOutcome.nack requeue_on_error, false⟩ := by
  cases body with
  | none => rfl
  | some j =>
      simp [NotificationConsumer.handle_message, h j rfl]

/-- Witness for C2 (amended): a non-JSON body and a JSON body that fails
schema validation, under the default requeue flag. -/
theorem handle_malformed_witness :
    NotificationConsumer.handle_message settings.rabbitmq_requeue_on_error
      (fun _ => true) none =
      ⟨HandleOutcome.nack settings.rabbitmq_requeue_on_error, false⟩ ∧
    NotificationConsumer.handle_message settings.rabbitmq_requeue_on_error
      (fun _ => true) (some (Json.str "not an object")) =
      ⟨HandleOutcome.nack settings.rabbitmq_requeue_on_error, false⟩ := by
  refine ⟨handle_malformed _ _ none (fun j hj => by cases hj), ?_⟩
  exact handle_malformed _ _ (some (Json.str "not an object"))
    (fun j hj => by cases hj; rfl)

/-- C3: when `resolve_recipient_roles` returns the empty list, the orchestrator
fails with the policy-resolution error (the `ValueError` raised in
`prepare_message`), and the enqueue endpoint performs no publish and returns a
client error. -/
theorem prepare_no_roles_fails (engine : NotificationRuleEngine)
    (request : NotificationRequest) (now : Nat)
    (h : engine.resolve_recipient_roles request = []) :
    NotificationOrchestrator.prepare_message engine request now =
      Except.error (PrepareError.policyResolutionError
        ("No recipient roles resolved for event " ++ request.event_type ++
          ". Provide recipient_roles explicitly or register a rule.")) ∧
    (enqueue_notification engine request now).published = [] ∧
    (enqueue_notification engine request now).response =
      ApiResponse.clientError
        ("No recipient roles resolved for event " ++ request.event_type ++
          ". Provide recipient_roles explicitly or register a rule.") := by
  have h1 : NotificationOrchestrator.prepare_message engine request now =
      Except.error (PrepareError.policyResolutionError
        ("No recipient roles resolved for event " ++ request.event_type ++
          ". Provide recipient_roles explicitly or register a rule.")) := by
    simp [NotificationOrchestrator.prepare_message, h]
  exact ⟨h1, by simp [enqueue_notification, h1],
    by simp [enqueue_notification, h1]⟩

/-- Witness for C3: Scenario B, an unknown event type with no explicit roles
produces a client error and no publish. -/
theorem prepare_no_roles_fails_witness :
    (enqueue_notification defaultRuleEngine exampleUnknownRequest 0).published
      = [] ∧
    (enqueue_notification defaultRuleEngine exampleUnknownRequest 0).response =
      ApiResponse.clientError
        ("No recipient roles resolved for event " ++ "unknown.event" ++
          ". Provide recipient_roles explicitly or register a rule.") := by
  have h := prepare_no_roles_fails defaultRuleEngine exampleUnknownRequest 0 rfl
  exact ⟨h.2.1, h.2.2⟩

/-- C8: `dispatch` fails exactly when at least one per-channel send fails and
succeeds exactly when every attempted send succeeds; a message with absent or
empty channels has sends attempted on exactly the single channel `email`,
and otherwise on exactly its channel list. -/
theorem dispatch_all_or_nothing
    (send : NotificationMessage → DeliveryChannel → Bool)
    (m : NotificationMessage) :
    ((NotificationDispatcher.dispatch send m).ok = false ↔
      ∃ c ∈ (NotificationDispatcher.dispatch send m).attempted,
        send m c = false) ∧
    ((NotificationDispatcher.dispatch send m).ok = true ↔
      ∀ c ∈ (NotificationDispatcher.dispatch send m).attempted,
        send m c = true) ∧
    ((m.channels = none ∨ m.channels = some []) →
      (NotificationDispatcher.dispatch send m).attempted =
        [DeliveryChannel.email]) ∧
    (∀ cs, m.channels = some cs → cs ≠ [] →
      (NotificationDispatcher.dispatch send m).attempted = cs) := by
  refine ⟨?_, ?_, ?_, ?_⟩
  · simp only [NotificationDispatcher.dispatch]
    constructor
    · intro h
      rcases List.all_eq_false.mp h with ⟨c, hc, hsend⟩
      exact ⟨c, hc, by simpa using hsend⟩
    · rintro ⟨c, hc, hsend⟩
      rw [List.all_eq_false]
      exact ⟨c, hc, by simp [hsend]⟩
  · simp only [NotificationDispatcher.dispatch]
    exact List.all_eq_true
  · rintro (hch | hch) <;>
      simp [NotificationDispatcher.dispatch, truthyList, hch]
  · intro cs hcs hne
    simp [NotificationDispatcher.dispatch, truthyList, hcs,
      List.isEmpty_iff, hne]

/-- Witness for C8: a sender failing on `sms` fails a two-channel dispatch,
succeeds on `exampleMessage` (email and in_app only), and a message without
channels is attempted on exactly `[email]`. -/
theorem dispatch_all_or_nothing_witness :
    (NotificationDispatcher.dispatch failOnSms
      ⟨"credential.issued", "svc", RoleType.issuer, [RoleType.learner],
        ["u1"], some [DeliveryChannel.email, DeliveryChannel.sms],
        ⟨none, none, []⟩, 0⟩).ok = false ∧
    (NotificationDispatcher.dispatch failOnSms exampleMessage).ok = true ∧
    (NotificationDispatcher.dispatch failOnSms
      exampleMessageNoChannels).attempted = [DeliveryChannel.email] := by
  refine ⟨?_, ?_, ?_⟩
  · exact (dispatch_all_or_nothing failOnSms _).1.mpr
      ⟨DeliveryChannel.sms, by decide, rfl⟩
  · exact (dispatch_all_or_nothing failOnSms exampleMessage).2.1.mpr
      (by decide)
  · exact (dispatch_all_or_nothing failOnSms
      exampleMessageNoChannels).2.2.1 (Or.inl rfl)

/-- Counterexample to C9: with a supplied empty-string routing key, `publish`
hands the message to the connection manager with the configured default
routing key, not the supplied one (Python `or` treats `""` as falsy). -/
theorem publish_empty_routing_key_counterexample :
    (NotificationPublisher.publish settings.rabbitmq_publish_routing_key
      exampleMessage (some "")).routing_key = "notifications.broadcast" ∧
    (NotificationPublisher.publish settings.rabbitmq_publish_routing_key
      exampleMessage (some "")).routing_key ≠ "" := by
  exact ⟨rfl, by decide⟩

/-- C9 (amended): `publish` serializes the message, builds a persistent
(delivery mode 2) broker message whose headers carry the event type and
source, and hands it to the connection manager with the supplied routing key
when a non-empty one is given, otherwise with the configured default (an
empty supplied routing key also falls back to the default). -/
theorem publish_builds_persistent_message (default_routing_key : String)
    (m : NotificationMessage) (rk : Option String) :
    (NotificationPublisher.publish default_routing_key m rk).message.body =
      m.model_dump_json ∧
    (NotificationPublisher.publish default_routing_key m rk).message.content_type
      = "application/json" ∧
    (NotificationPublisher.publish default_routing_key m rk).message.delivery_mode
      = 2 ∧
    (NotificationPublisher.publish default_routing_key m rk).message.headers =
      [ ("event_type", Json.str m.event_type),
        ("source", Json.str m.source) ] ∧
    (∀ k, rk = some k → k ≠ "" →
      (NotificationPublisher.publish default_routing_key m rk).routing_key = k) ∧
    ((rk = none ∨ rk = some "") →
      (NotificationPublisher.publish default_routing_key m rk).routing_key =
        default_routing_key) := by
  refine ⟨rfl, rfl, rfl, rfl, ?_, ?_⟩
  · intro k hk hne
    have hie : k.isEmpty = false := by
      cases hb : k.isEmpty
      · rfl
      · exact absurd ((String.isEmpty_iff k).mp hb) hne
    simp [NotificationPublisher.publish, pyOrStr, hk, hie]
  · rintro (rfl | rfl) <;> rfl

/-- Witness for C9 (amended): a supplied non-empty routing key is used, an
absent one falls back to the configured default. -/
theorem publish_builds_persistent_message_witness :
    (NotificationPublisher.publish settings.rabbitmq_publish_routing_key
      exampleMessage (some "notifications.custom")).routing_key =
      "notifications.custom" ∧
    (NotificationPublisher.publish settings.rabbitmq_publish_routing_key
      exampleMessage none).routing_key = "notifications.broadcast" ∧
    (NotificationPublisher.publish settings.rabbitmq_publish_routing_key
      exampleMessage none).message.delivery_mode = 2 := by
  have h1 := publish_builds_persistent_message
    settings.rabbitmq_publish_routing_key exampleMessage
    (some "notifications.custom")
  have h2 := publish_builds_persistent_message
    settings.rabbitmq_publish_routing_key exampleMessage none
  exact ⟨h1.2.2.2.2.1 "notifications.custom" rfl (by decide),
    h2.2.2.2.2.2 (Or.inl rfl), h2.2.2.1⟩

theorem prepare_message_time (engine : NotificationRuleEngine)
    (request : NotificationRequest) (now : Nat) :
    NotificationOrchestrator.prepare_message engine request now =
      (NotificationOrchestrator.prepare_message engine request 0).map
        (fun m => { m with created_at := now }) := by
  unfold NotificationOrchestrator.prepare_message NotificationRequest.to_message
    NotificationMessage.construct
  by_cases h1 : (engine.resolve_recipient_roles request).isEmpty
  · simp [h1, Except.map]
  · have hne : (engine.resolve_recipient_roles request).isEmpty = false :=
      Bool.eq_false_iff.mpr h1
    have hnil : engine.resolve_recipient_roles request ≠ [] := by
      intro hh; rw [hh] at hne; simp at hne
    have ht : truthyList (some (engine.resolve_recipient_roles request)) = true := by
      simp [truthyList, hne]
    simp only [h1, if_false, ht, if_true, Option.getD_some, hnil, if_neg,
      Bool.false_eq_true, not_false_iff]
    split <;> simp_all [Except.map, truthyList] <;>
      (try (split <;> simp_all [Except.map, truthyList]))

/-- C6: `prepare_message` is deterministic up to timestamp: two successful
calls on the same request (with the same rule table and the fixed
`settings.app_name` source) agree on every field except `created_at`, which
carries each call's clock reading. The embedding is pure, so the request value
is never mutated (the source reads but never writes `request`). -/
theorem prepare_message_deterministic (engine : NotificationRuleEngine)
    (request : NotificationRequest) (now1 now2 : Nat)
    (m1 m2 : NotificationMessage)
    (h1 : NotificationOrchestrator.prepare_message engine request now1 =
      Except.ok m1)
    (h2 : NotificationOrchestrator.prepare_message engine request now2 =
      Except.ok m2) :
    m1.event_type = m2.event_type ∧ m1.source = m2.source ∧
    m1.actor_role = m2.actor_role ∧
    m1.recipient_roles = m2.recipient_roles ∧
    m1.recipients = m2.recipients ∧ m1.channels = m2.channels ∧
    m1.payload = m2.payload ∧ m1.created_at = now1 ∧ m2.created_at = now2 := by
  rw [prepare_message_time engine request now1] at h1
  rw [prepare_message_time engine request now2] at h2
  cases h0 : NotificationOrchestrator.prepare_message engine request 0 with
  | error e => rw [h0] at h1; simp [Except.map] at h1
  | ok m0 =>
      rw [h0] at h1 h2
      simp only [Except.map] at h1 h2
      cases h1; cases h2
      exact ⟨rfl, rfl, rfl, rfl, rfl, rfl, rfl, rfl, rfl⟩

/-- Witness for C6: preparing Scenario A at two different clock readings. -/
theorem prepare_message_deterministic_witness :
    (⟨"credential.issued", "CredApp Notification Service", RoleType.issuer,
      [RoleType.learner], ["u1"],
      some [DeliveryChannel.email, DeliveryChannel.in_app], ⟨none, none, []⟩,
      (1 : Nat)⟩ : NotificationMessage).channels =
    (⟨"credential.issued", "CredApp Notification Service", RoleType.issuer,
      [RoleType.learner], ["u1"],
      some [DeliveryChannel.email, DeliveryChannel.in_app], ⟨none, none, []⟩,
      (2 : Nat)⟩ : NotificationMessage).channels ∧
    (⟨"credential.issued", "CredApp Notification Service", RoleType.issuer,
      [RoleType.learner], ["u1"],
      some [DeliveryChannel.email, DeliveryChannel.in_app], ⟨none, none, []⟩,
      (1 : Nat)⟩ : NotificationMessage).created_at = 1 := by
  have h := prepare_message_deterministic defaultRuleEngine
    exampleIssuedRequest 1 2
    ⟨"credential.issued", "CredApp Notification Service", RoleType.issuer,
      [RoleType.learner], ["u1"],
      some [DeliveryChannel.email, DeliveryChannel.in_app], ⟨none, none, []⟩, 1⟩
    ⟨"credential.issued", "CredApp Notification Service", RoleType.issuer,
      [RoleType.learner], ["u1"],
      some [DeliveryChannel.email, DeliveryChannel.in_app], ⟨none, none, []⟩, 2⟩
    rfl rfl
  exact ⟨h.2.2.2.2.2.1, h.2.2.2.2.2.2.2.1⟩

theorem dump_getField_event_type (m : NotificationMessage) :
    (m.model_dump_json).getField "event_type" = some (Json.str m.event_type) := rfl

theorem dump_getField_source (m : NotificationMessage) :
    (m.model_dump_json).getField "source" = some (Json.str m.source) := rfl

theorem dump_getField_actor_role (m : NotificationMessage) :
    (m.model_dump_json).getField "actor_role" =
      some (Json.str m.actor_role.value) := rfl

theorem dump_getField_recipient_roles (m : NotificationMessage) :
    (m.model_dump_json).getField "recipient_roles" =
      some (Json.arr (m.recipient_roles.map (fun r => Json.str r.value))) := rfl

theorem dump_getField_recipients (m : NotificationMessage) :
    (m.model_dump_json).getField "recipients" =
      some (Json.arr (m.recipients.map Json.str)) := rfl

theorem dump_getField_channels (m : NotificationMessage) :
    (m.model_dump_json).getField "channels" =
      some (match m.channels with
        | none => Json.null
        | some cs => Json.arr (cs.map (fun c => Json.str c.value))) := rfl

theorem dump_getField_payload (m : NotificationMessage) :
    (m.model_dump_json).getField "payload" =
      some (Json.obj
        [ ("subject", encodeOptStr m.payload.subject),
          ("body", encodeOptStr m.payload.body),
          ("metadata", Json.obj m.payload.metadata) ]) := rfl

theorem dump_getField_created_at (m : NotificationMessage) :
    (m.model_dump_json).getField "created_at" =
      some (Json.num m.created_at) := rfl

theorem decodeRole_value (r : RoleType) :
    decodeRole (Json.str r.value) = some r := by
  cases r <;> rfl

theorem decodeChannel_value (c : DeliveryChannel) :
    decodeChannel (Json.str c.value) = some c := by
  cases c <;> rfl

theorem decodeList_roles (l : List RoleType) :
    decodeList decodeRole (l.map (fun r => Json.str r.value)) = some l := by
  induction l with
  | nil => rfl
  | cons a l ih => simp [decodeList, decodeRole_value, ih]

theorem decodeList_channels (l : List DeliveryChannel) :
    decodeList decodeChannel (l.map (fun c => Json.str c.value)) = some l := by
  induction l with
  | nil => rfl
  | cons a l ih => simp [decodeList, decodeChannel_value, ih]

theorem decodeList_strings (l : List String) :
    decodeList Json.asStr (l.map Json.str) = some l := by
  induction l with
  | nil => rfl
  | cons a l ih => simp [decodeList, Json.asStr, ih]

theorem decodeChannels_encode (ch : Option (List DeliveryChannel)) :
    decodeChannels (some (match ch with
      | none => Json.null
      | some cs => Json.arr (cs.map (fun c => Json.str c.value)))) = some ch := by
  cases ch with
  | none => rfl
  | some cs => simp [decodeChannels, decodeList_channels]

theorem decodePayload_encode (p : NotificationPayload) :
    decodePayload (some (Json.obj
      [ ("subject", encodeOptStr p.subject), ("body", encodeOptStr p.body),
        ("metadata", Json.obj p.metadata) ])) = some p := by
  obtain ⟨subj, bod, md⟩ := p
  cases subj <;> cases bod <;> rfl

theorem model_validate_dump (m : NotificationMessage)
    (h : m.recipient_roles ≠ []) :
    NotificationMessage.model_validate m.model_dump_json = some m := by
  have hie : m.recipient_roles.isEmpty = false := by
    cases hm : m.recipient_roles
    · exact absurd hm h
    · rfl
  simp only [NotificationMessage.model_validate, dump_getField_event_type,
    dump_getField_source, dump_getField_actor_role,
    dump_getField_recipient_roles, dump_getField_recipients,
    dump_getField_channels, dump_getField_payload, dump_getField_created_at,
    Option.some_bind, Json.asStr, decodeRole_value, decodeList_roles,
    decodeList_strings, decodeChannels_encode, decodePayload_encode, hie,
    Bool.false_eq_true, if_false]

/-- C7: round-trip: the body of the broker message built by the publisher,
deserialized the way the consumer does it (JSON decode, abstracted as keeping
the JSON value, followed by `model_validate`), yields the original message,
equal in every field (in this embedding the timestamp round-trips exactly, so
equality holds even on `created_at`). -/
theorem publish_consume_roundtrip (default_routing_key : String)
    (m : NotificationMessage) (rk : Option String)
    (h : m.recipient_roles ≠ []) :
    NotificationMessage.model_validate
      ((NotificationPublisher.publish default_routing_key m rk).message.body) =
      some m :=
  model_validate_dump m h

/-- Witness for C7: round-trip of a concrete message through the default
routing key. -/
theorem publish_consume_roundtrip_witness :
    NotificationMessage.model_validate
      ((NotificationPublisher.publish "notifications.broadcast" exampleMessage
        none).message.body) = some exampleMessage := by
  exact publish_consume_roundtrip "notifications.broadcast" exampleMessage none
    (by decide)
